import Mathlib

/-!
Shallow embedding of the Resilient Parallel Scan Orchestration Engine of the
Hexstrike-ai repository, covering:

* `src/core/cache/scan_cache.py` (`ScanResultCache`, `CacheAwareExecutor`),
* `src/core/execution/error_handler.py` (`ErrorDiagnostics`, `ToolAlternatives`,
  `ResilientExecutor`),
* `src/core/execution/parallel_scanner.py` (`ParallelScanner`).

Python dictionaries with string keys are embedded as association lists
(`List (String × _)`) together with lookup / overwrite-or-append operations
mirroring `d[k]`, `d.get(k)` and `{**d, k: v}`.  Wall-clock time
(`time.time()`) is threaded explicitly as a `Nat` argument.  The process-local
(memory) cache backend is modelled; the claims under study address it.
-/

namespace Hexstrike

/-- Values stored in the string-keyed Python dictionaries that flow through the
engine (scan-result payloads, failure results).  `null` is Python `None`;
`strlist` covers the lists of suggestion strings produced by the error
handler. -/
inductive RVal where
  | bool : Bool → RVal
  | str : String → RVal
  | int : Int → RVal
  | strlist : List String → RVal
  | null : RVal
  deriving DecidableEq, Repr

/-- Python truthiness of a value, as used by `if result.get('success'):` and
friends in the source. -/
def RVal.truthy : RVal → Bool
  | .bool b => b
  | .str s => !s.isEmpty
  | .int n => n != 0
  | .strlist l => !l.isEmpty
  | .null => false

/-- Truthiness of `d.get(k)`: a missing key yields `None`, which is falsy. -/
def truthy : Option RVal → Bool
  | none => false
  | some v => v.truthy

/-- Association-list lookup, embedding `d.get(k)` on a Python dict (whose keys
are unique). -/
def alGet {α : Type} (m : List (String × α)) (k : String) : Option α :=
  (m.find? (fun p => p.1 == k)).map (fun p => p.2)

/-- Association-list overwrite-or-append, embedding `d[k] = v` / `{**d, k: v}`:
an existing key keeps its position and gets the new value, a new key is
appended (Python dicts preserve insertion order). -/
def alSet {α : Type} (m : List (String × α)) (k : String) (v : α) : List (String × α) :=
  if m.any (fun p => p.1 == k) then m.map (fun p => if p.1 == k then (k, v) else p)
  else m ++ [(k, v)]

/-- Association-list removal, embedding `del d[k]`. -/
def alDel {α : Type} (m : List (String × α)) (k : String) : List (String × α) :=
  m.filter (fun p => !(p.1 == k))

/-- A Python dict of scan-result data: string keys to values. -/
abbrev Dict := List (String × RVal)

/-- `d.get(k)` on a result dict. -/
def dictGet (d : Dict) (k : String) : Option RVal := alGet d k

/-- `{**d, k: v}` on a result dict. -/
def dictSet (d : Dict) (k : String) (v : RVal) : Dict := alSet d k v

/-- The `params: Dict[str, Any]` maps passed to every executor and hashed into
the cache fingerprint, as ordered key/value pair lists. -/
abbrev Params := List (String × RVal)

/-! ### `json.dumps(params, sort_keys=True)` -/

/-- Key order used by `sort_keys=True`: compare entries by their string key. -/
def keyLe (a b : String × RVal) : Prop := a.1 ≤ b.1

instance : DecidableRel keyLe := fun a b => inferInstanceAs (Decidable (a.1 ≤ b.1))

instance : IsTotal (String × RVal) keyLe := ⟨fun a b => le_total a.1 b.1⟩

instance : IsTrans (String × RVal) keyLe := ⟨fun _ _ _ h h2 => le_trans h h2⟩

/-- Parameter entries sorted by key, as `json.dumps(..., sort_keys=True)`
serialises them.  A stable sort; Python dict keys are unique, for which any
correct by-key sort produces the same list. -/
def sortParams (p : Params) : Params := List.insertionSort keyLe p

/-- JSON serialisation of a single value, approximating `json.dumps` output
(string escaping is irrelevant to every claim: only functionality and
injectivity on the canonical form matter). -/
def encodeRVal : RVal → String
  | .bool b => if b then "true" else "false"
  | .str s => "\"" ++ s ++ "\""
  | .int n => toString n
  | .strlist l => "[" ++ String.intercalate ", " (l.map (fun s => "\"" ++ s ++ "\"")) ++ "]"
  | .null => "null"

/-- `json.dumps(params, sort_keys=True)`: serialise the entries in key-sorted
order. -/
def dumpsSorted (p : Params) : String :=
  "\x7b" ++
    String.intercalate ", "
      ((sortParams p).map (fun kv => "\"" ++ kv.1 ++ "\": " ++ encodeRVal kv.2)) ++
    "\x7d"

/-- `hashlib.md5(data.encode()).hexdigest()`: a fixed deterministic function of
the input string.  No claim depends on concrete digest values or on hash
collisions, only on the digest being a function of its input, so the digest is
modelled as the identity embedding of the preimage string. -/
def md5Hex (s : String) : String := s

/-- `ScanResultCache._generate_cache_key`: canonicalise the parameters, combine
with tool name and target, hash, and namespace the key. -/
def generate_cache_key (tool_name target : String) (params : Params) : String :=
  let sorted_params := dumpsSorted params
  let data := tool_name ++ ":" ++ target ++ ":" ++ sorted_params
  "hexstrike:scan:" ++ tool_name ++ ":" ++ md5Hex data

/-! ### TTL resolution (`ScanResultCache.DEFAULT_TTL` / `TOOL_TTL`) -/

/-- `ScanResultCache.DEFAULT_TTL.get(scan_type, DEFAULT_TTL['default'])`:
per-scan-type TTL with a 3600-second default. -/
def DEFAULT_TTL (scan_type : String) : Nat :=
  if scan_type == "quick_scan" then 3600
  else if scan_type == "normal_scan" then 7200
  else if scan_type == "deep_scan" then 14400
  else if scan_type == "vulnerability_scan" then 21600
  else if scan_type == "default" then 3600
  else 3600

/-- `ScanResultCache.TOOL_TTL.get(tool_name)`: tool-specific TTL overrides. -/
def TOOL_TTL (tool_name : String) : Option Nat :=
  if tool_name == "httpx" then some 1800
  else if tool_name == "nmap" then some 7200
  else if tool_name == "nuclei" then some 21600
  else if tool_name == "sqlmap" then some 14400
  else if tool_name == "subfinder" then some 86400
  else if tool_name == "amass" then some 86400
  else if tool_name == "nikto" then some 14400
  else none

/-- TTL resolution in `ScanResultCache.set`: explicit argument, else tool
override, else per-scan-type default. -/
def resolveTTL (tool_name : String) (ttl : Option Nat) (scan_type : String) : Nat :=
  match ttl with
  | some t => t
  | none => (TOOL_TTL tool_name).getD (DEFAULT_TTL scan_type)

/-! ### Cache entries and the memory backend -/

/-- The `cached_data` wrapper built in `ScanResultCache.set`:
`{'result': result, 'tool_name': ..., 'target': ..., 'cached_at': ..., 'ttl': ...}`.
The wrapper has this fixed shape in the source, so it is embedded as a
structure; `cached_at` (an ISO timestamp in the source) is the `Nat` clock. -/
structure CachedData where
  result : Dict
  tool_name : String
  target : String
  cached_at : Nat
  ttl : Nat
  deriving DecidableEq, Repr

/-- The `CacheEntry` dataclass of `scan_cache.py`. -/
structure CacheEntry where
  key : String
  data : CachedData
  created_at : Nat
  expires_at : Nat
  tool_name : String
  target : String
  deriving DecidableEq, Repr

/-- State of `ScanResultCache` on the process-local (memory) backend:
`self.memory_cache`, a dict from cache key to entry. -/
structure ScanResultCache where
  memory_cache : List (String × CacheEntry)
  deriving DecidableEq, Repr

/-- `ScanResultCache.get` on the memory backend: compute the key; a present,
unexpired entry is returned; an expired entry is purged on this read (lazy
expiry) and the lookup misses.  Returns the result together with the
possibly-purged cache state. -/
def cache_get (c : ScanResultCache) (now : Nat) (tool_name target : String)
    (params : Params) : Option CachedData × ScanResultCache :=
  let key := generate_cache_key tool_name target params
  match alGet c.memory_cache key with
  | some entry =>
      if now < entry.expires_at then (some entry.data, c)
      else (none, ⟨alDel c.memory_cache key⟩)
  | none => (none, c)

/-- `ScanResultCache.set` on the memory backend: resolve the TTL, wrap the
result in `cached_data`, store the entry under the fingerprint key.  Returns
`true` (success) and the new cache state. -/
def cache_set (c : ScanResultCache) (now : Nat) (tool_name target : String)
    (params : Params) (result : Dict) (ttl : Option Nat) (scan_type : String) :
    Bool × ScanResultCache :=
  let key := generate_cache_key tool_name target params
  let t := resolveTTL tool_name ttl scan_type
  let cached_data : CachedData := ⟨result, tool_name, target, now, t⟩
  let entry : CacheEntry := ⟨key, cached_data, now, now + t, tool_name, target⟩
  (true, ⟨alSet c.memory_cache key entry⟩)

/-- `CacheAwareExecutor.execute_with_cache`: unless `force_refresh`, consult
the cache first and on a hit return the cached result annotated
`from_cache=True` plus the original timestamp; otherwise run the executor and,
only when its result is truthy-successful, store it; the executed result is
returned annotated `from_cache=False`. -/
def execute_with_cache (cache : ScanResultCache) (now : Nat) (tool_name target : String)
    (params : Params) (executor_func : String → Params → Dict)
    (force_refresh : Bool) (scan_type : String) : Dict × ScanResultCache :=
  let run := fun (c : ScanResultCache) =>
    let result := executor_func target params
    let c2 :=
      if truthy (dictGet result "success") then
        (cache_set c now tool_name target params result none scan_type).2
      else c
    (dictSet result "from_cache" (.bool false), c2)
  if force_refresh then run cache
  else
    match cache_get cache now tool_name target params with
    | (some cached, c1) =>
        (dictSet (dictSet cached.result "from_cache" (.bool true)) "cached_at"
          (.int cached.cached_at), c1)
    | (none, c1) => run c1

/-! ### Association-list lemmas -/

/-- Lookup on a cons cell tests the head key first, as `find?` does. -/
theorem alGet_cons {α : Type} (p : String × α) (m : List (String × α)) (k : String) :
    alGet (p :: m) k = if p.1 == k then some p.2 else alGet m k := by
  by_cases h : p.1 == k
  · simp [alGet, List.find?_cons_of_pos, h]
  · simp [alGet, List.find?_cons_of_neg, h]

/-- Overwriting key `k` leaves a cons cell with a different head key in place. -/
theorem alSet_cons_ne {α : Type} (p : String × α) (m : List (String × α)) (k : String) (v : α)
    (hp : (p.1 == k) = false) : alSet (p :: m) k v = p :: alSet m k v := by
  simp only [alSet, List.any_cons, hp, Bool.false_or, List.map_cons, List.cons_append]
  split <;> simp [hp]

/-- Looking up a key right after storing it returns the stored value. -/
theorem alGet_alSet_self {α : Type} (m : List (String × α)) (k : String) (v : α) :
    alGet (alSet m k v) k = some v := by
  induction m with
  | nil => simp [alSet, alGet]
  | cons p rest ih =>
    by_cases hp : p.1 == k
    · have hset : alSet (p :: rest) k v =
          (k, v) :: rest.map (fun q => if q.1 == k then (k, v) else q) := by
        simp [alSet, hp]
        intro h
        exact absurd (by simpa using hp) h
      rw [hset, alGet_cons]
      simp
    · rw [alSet_cons_ne p rest k v (by simpa using hp), alGet_cons]
      simp only [hp, if_false]
      exact ih

/-! ### C1: cache round-trip on the process-local backend -/

/-- C1.  For every probe kind, target and parameter map, `set` followed by
`get` on the process-local backend returns the stored payload (the stored
`cached_data` envelope whose `result` field is exactly the payload `v`, as
`set` stores it) while the resolved TTL has not elapsed, and returns absent
once time has advanced past the TTL expiry. -/
theorem cache_round_trip (c : ScanResultCache) (now : Nat) (k t : String) (p : Params)
    (v : Dict) (ttl : Option Nat) (st : String) (now₁ now₂ : Nat)
    (h₁ : now₁ < now + resolveTTL k ttl st)
    (h₂ : now + resolveTTL k ttl st ≤ now₂) :
    (cache_set c now k t p v ttl st).1 = true ∧
    (cache_get (cache_set c now k t p v ttl st).2 now₁ k t p).1 =
      some ⟨v, k, t, now, resolveTTL k ttl st⟩ ∧
    (cache_get (cache_set c now k t p v ttl st).2 now₂ k t p).1 = none := by
  refine ⟨rfl, ?_, ?_⟩
  · simp only [cache_get, cache_set, alGet_alSet_self]
    rw [if_pos h₁]
  · simp only [cache_get, cache_set, alGet_alSet_self]
    rw [if_neg (by omega)]

/-- Witness for `cache_round_trip`: an `nmap` result cached at time 0 with the
default TTL resolution (tool TTL 7200) is readable at time 10 and absent at
time 7200. -/
theorem cache_round_trip_witness :
    (cache_set ⟨[]⟩ 0 "nmap" "scanme" [] [("ports", RVal.strlist ["80"])] none "default").1 =
      true ∧
    (cache_get (cache_set ⟨[]⟩ 0 "nmap" "scanme" [] [("ports", RVal.strlist ["80"])] none
        "default").2 10 "nmap" "scanme" []).1 =
      some ⟨[("ports", RVal.strlist ["80"])], "nmap", "scanme", 0, 7200⟩ ∧
    (cache_get (cache_set ⟨[]⟩ 0 "nmap" "scanme" [] [("ports", RVal.strlist ["80"])] none
        "default").2 7200 "nmap" "scanme" []).1 = none := by
  have h := cache_round_trip ⟨[]⟩ 0 "nmap" "scanme" [] [("ports", RVal.strlist ["80"])] none
    "default" 10 7200 (by decide) (by decide)
  simpa using h

/-! ### C8: fingerprint order-independence -/

/-- Strict key order on parameter entries. -/
def keyLt (a b : String × RVal) : Prop := a.1 < b.1

instance : IsAntisymm (String × RVal) keyLt :=
  ⟨fun _ _ h h2 => absurd h2 (lt_asymm h)⟩

/-- A by-key sort is canonical on parameter lists with distinct keys: two
permutations of each other sort to the same list. -/
theorem sortParams_perm_eq (p₁ p₂ : Params) (hperm : p₁.Perm p₂)
    (hnd : (p₁.map Prod.fst).Nodup) : sortParams p₁ = sortParams p₂ := by
  have hp : (sortParams p₁).Perm (sortParams p₂) :=
    (List.perm_insertionSort keyLe p₁).trans
      (hperm.trans (List.perm_insertionSort keyLe p₂).symm)
  have hnd₁ : ((sortParams p₁).map Prod.fst).Nodup :=
    (((List.perm_insertionSort keyLe p₁).map Prod.fst).nodup_iff).mpr hnd
  have hnd₂ : ((sortParams p₂).map Prod.fst).Nodup :=
    ((hp.map Prod.fst).nodup_iff).mp hnd₁
  have strict : ∀ (l : Params), l.Sorted keyLe → (l.map Prod.fst).Nodup → l.Sorted keyLt := by
    intro l hle hnod
    have hne : l.Pairwise (fun a b => a.1 ≠ b.1) := (List.pairwise_map).mp hnod
    exact (hle.and hne).imp (fun h => lt_of_le_of_ne h.1 h.2)
  exact List.eq_of_perm_of_sorted hp
    (strict _ (List.sorted_insertionSort keyLe p₁) hnd₁)
    (strict _ (List.sorted_insertionSort keyLe p₂) hnd₂)

/-- C8.  The cache fingerprint is insensitive to parameter insertion order:
two parameter maps holding the same key/value pairs in different orders
generate the same cache key, so `get` with one ordering observes exactly what
`set` with the other ordering wrote (the whole `cache_get` outcome agrees). -/
theorem fingerprint_order_independent (tool target : String) (p₁ p₂ : Params)
    (hperm : p₁.Perm p₂) (hnd : (p₁.map Prod.fst).Nodup) :
    generate_cache_key tool target p₁ = generate_cache_key tool target p₂ ∧
    ∀ (c : ScanResultCache) (now : Nat),
      cache_get c now tool target p₂ = cache_get c now tool target p₁ := by
  have hs := sortParams_perm_eq p₁ p₂ hperm hnd
  have hkey : generate_cache_key tool target p₁ = generate_cache_key tool target p₂ := by
    simp [generate_cache_key, dumpsSorted, hs]
  exact ⟨hkey, fun c now => by simp [cache_get, hkey]⟩

/-- Witness for `fingerprint_order_independent`: the keys for
`{a: 1, b: 2}` and `{b: 2, a: 1}` coincide. -/
theorem fingerprint_order_independent_witness :
    generate_cache_key "nmap" "scanme" [("a", RVal.int 1), ("b", RVal.int 2)] =
      generate_cache_key "nmap" "scanme" [("b", RVal.int 2), ("a", RVal.int 1)] :=
  (fingerprint_order_independent "nmap" "scanme"
    [("a", RVal.int 1), ("b", RVal.int 2)] [("b", RVal.int 2), ("a", RVal.int 1)]
    (by decide) (by decide)).1

/-! ### C5: failures are never cached, but the failed result is annotated -/

/-- An executor that always reports failure. -/
def failingExec : String → Params → Dict := fun _ _ => [("success", RVal.bool false)]

/-- Counterexample to C5 as stated: the failed result is NOT returned
unmodified — `execute_with_cache` merges `from_cache: False` into every
executed result, failures included (while the cache is indeed left
unchanged). -/
theorem failed_result_gets_from_cache_flag :
    (execute_with_cache ⟨[]⟩ 0 "nmap" "scanme" [] failingExec false "default").1 ≠
      failingExec "scanme" [] ∧
    (execute_with_cache ⟨[]⟩ 0 "nmap" "scanme" [] failingExec false "default").2 = ⟨[]⟩ := by
  decide

/-- C5, amended.  When the cache holds no entry for the fingerprint and the
executor reports failure, no cache entry is written (the cache state is
returned unchanged) and the failed result is returned annotated
`from_cache=False` and otherwise unmodified. -/
theorem no_cache_on_failure (cache : ScanResultCache) (now : Nat) (tool target : String)
    (p : Params) (f : String → Params → Dict) (st : String)
    (hfail : truthy (dictGet (f target p) "success") = false)
    (hmiss : alGet cache.memory_cache (generate_cache_key tool target p) = none) :
    execute_with_cache cache now tool target p f false st =
      (dictSet (f target p) "from_cache" (.bool false), cache) := by
  simp only [execute_with_cache, cache_get, hmiss, Bool.false_eq_true, if_false, hfail]

/-- Witness for `no_cache_on_failure`: a failing executor against an empty
cache leaves it empty and gets its result back with the `from_cache: False`
annotation. -/
theorem no_cache_on_failure_witness :
    execute_with_cache ⟨[]⟩ 0 "nmap" "scanme" [] failingExec false "default" =
      ([("success", RVal.bool false), ("from_cache", RVal.bool false)], ⟨[]⟩) :=
  (no_cache_on_failure ⟨[]⟩ 0 "nmap" "scanme" [] failingExec "default" (by decide)
    (by decide)).trans (by decide)

/-! ### Error taxonomy and diagnostics (`error_handler.py`) -/

/-- The `ErrorType` enum of `error_handler.py`. -/
inductive ErrorType where
  | TOOL_NOT_FOUND
  | TIMEOUT
  | PERMISSION_DENIED
  | NETWORK_ERROR
  | INVALID_TARGET
  | WAF_DETECTED
  | RATE_LIMITED
  | UNKNOWN
  deriving DecidableEq, Repr

/-- The `.value` string of each `ErrorType` member. -/
def errorTypeValue : ErrorType → String
  | .TOOL_NOT_FOUND => "tool_not_found"
  | .TIMEOUT => "timeout"
  | .PERMISSION_DENIED => "permission_denied"
  | .NETWORK_ERROR => "network_error"
  | .INVALID_TARGET => "invalid_target"
  | .WAF_DETECTED => "waf_detected"
  | .RATE_LIMITED => "rate_limited"
  | .UNKNOWN => "unknown"

/-- `ToolAlternatives.get_alternatives`: the static substitution table
`ALTERNATIVES`, with `[]` for tools having no entry
(`ALTERNATIVES.get(tool_name, [])`). -/
def get_alternatives (tool_name : String) : List String :=
  if tool_name == "httpx" then ["curl", "wget"]
  else if tool_name == "nuclei" then ["nikto", "wpscan"]
  else if tool_name == "nikto" then ["nuclei", "wpscan"]
  else if tool_name == "dalfox" then ["xsser", "xsstrike"]
  else if tool_name == "gobuster" then ["feroxbuster", "ffuf", "dirsearch"]
  else if tool_name == "feroxbuster" then ["gobuster", "ffuf", "dirsearch"]
  else if tool_name == "ffuf" then ["gobuster", "feroxbuster", "dirsearch"]
  else if tool_name == "dirsearch" then ["gobuster", "feroxbuster", "ffuf"]
  else if tool_name == "subfinder" then ["amass", "assetfinder", "sublist3r"]
  else if tool_name == "amass" then ["subfinder", "assetfinder"]
  else if tool_name == "nmap" then ["masscan", "rustscan"]
  else if tool_name == "masscan" then ["nmap", "rustscan"]
  else if tool_name == "rustscan" then ["nmap", "masscan"]
  else if tool_name == "sqlmap" then ["sqliv", "sqlninja"]
  else if tool_name == "arjun" then ["paramspider", "x8"]
  else if tool_name == "paramspider" then ["arjun", "x8"]
  else if tool_name == "x8" then ["arjun", "paramspider"]
  else if tool_name == "katana" then ["hakrawler", "gospider"]
  else if tool_name == "hakrawler" then ["katana", "gospider"]
  else []

/-- The pattern groups of `ErrorDiagnostics.ERROR_PATTERNS`, as the value part
of the Python dict; categories without an entry (notably `INVALID_TARGET` and
`UNKNOWN`) map to no patterns. -/
def ERROR_PATTERNS (t : ErrorType) : List String :=
  match t with
  | .TOOL_NOT_FOUND => ["not found", "command not found", "No such file or directory"]
  | .TIMEOUT => ["timeout", "timed out", "Time limit exceeded"]
  | .PERMISSION_DENIED => ["permission denied", "access denied", "Operation not permitted"]
  | .NETWORK_ERROR =>
      ["connection refused", "network unreachable", "no route to host",
       "Name or service not known"]
  | .WAF_DETECTED => ["WAF", "Web Application Firewall", "blocked by security", "rate limit"]
  | .RATE_LIMITED => ["rate limit", "too many requests", "429"]
  | _ => []

/-- Iteration order of the `ERROR_PATTERNS` dict (Python dicts iterate in
insertion order). -/
def ERROR_PATTERN_ORDER : List ErrorType :=
  [.TOOL_NOT_FOUND, .TIMEOUT, .PERMISSION_DENIED, .NETWORK_ERROR, .WAF_DETECTED, .RATE_LIMITED]

/-- `str.lower()` on the character sequence. -/
def pyLower (s : String) : String := String.mk (s.data.map Char.toLower)

/-- Whether the first character list leads the second (needle starts the
haystack). -/
def charsLead : List Char → List Char → Bool
  | [], _ => true
  | _ :: _, [] => false
  | a :: as, b :: bs => a == b && charsLead as bs

/-- Python substring test `needle in hay`. -/
def strContains (hay needle : String) : Bool :=
  (List.range (hay.data.length + 1)).any (fun i => charsLead needle.data (hay.data.drop i))

/-- Whether some pattern of the group for `t` occurs (case-insensitively) in
the combined text: `pattern.lower() in combined_text`. -/
def patternHit (combined : String) (t : ErrorType) : Bool :=
  (ERROR_PATTERNS t).any (fun p => strContains combined (pyLower p))

/-- The two nested loops of `diagnose_error`: the first pattern group in
iteration order with a hit wins; no hit gives `UNKNOWN`. -/
def firstMatch (combined : String) : List ErrorType → ErrorType
  | [] => .UNKNOWN
  | t :: rest => if patternHit combined t then t else firstMatch combined rest

/-- `ErrorDiagnostics.diagnose_error`: lower-case the concatenation of error
message and stderr, then first-match against the ordered pattern groups.  The
return code argument is accepted and ignored, as in the source. -/
def diagnose_error (error_message : String) (stderr : String) (returncode : Int) : ErrorType :=
  let combined := pyLower (error_message ++ " " ++ stderr)
  firstMatch combined ERROR_PATTERN_ORDER

/-- C9 spec-side definition, written from the claim: the category pattern
groups are checked in the fixed order tool-not-found, timeout,
permission-denied, network-error, waf-detected, rate-limited; the first group
containing a substring (case-insensitively) of the combined text determines
the category, and if no group matches the category is unknown. -/
def diagnose_spec (error_message stderr : String) : ErrorType :=
  let combined := pyLower (error_message ++ " " ++ stderr)
  (List.find? (fun t => patternHit combined t)
    [ErrorType.TOOL_NOT_FOUND, .TIMEOUT, .PERMISSION_DENIED, .NETWORK_ERROR, .WAF_DETECTED,
     .RATE_LIMITED]).getD .UNKNOWN

/-- First-match over a category list agrees with `find?` with an `UNKNOWN`
default. -/
theorem firstMatch_eq_find (combined : String) (l : List ErrorType) :
    firstMatch combined l = (List.find? (fun t => patternHit combined t) l).getD .UNKNOWN := by
  induction l with
  | nil => rfl
  | cons t rest ih =>
    by_cases h : patternHit combined t
    · simp [firstMatch, List.find?_cons_of_pos, h]
    · simp [firstMatch, List.find?_cons_of_neg, h, ih]

/-- C9.  Error classification checks the pattern groups in the fixed order
tool-not-found, timeout, permission-denied, network-error, waf-detected,
rate-limited; the first group containing a case-insensitive substring of the
combined error-message/stderr text determines the category, else unknown. -/
theorem diagnose_error_first_match_order (msg stderr : String) (rc : Int) :
    diagnose_error msg stderr rc = diagnose_spec msg stderr := by
  simp only [diagnose_error, diagnose_spec, ERROR_PATTERN_ORDER, firstMatch_eq_find]

/-- `firstMatch` only ever returns a category from the scanned list, or
`UNKNOWN`. -/
theorem firstMatch_mem (combined : String) (l : List ErrorType) :
    firstMatch combined l = .UNKNOWN ∨ firstMatch combined l ∈ l := by
  induction l with
  | nil => exact Or.inl rfl
  | cons t rest ih =>
    by_cases h : patternHit combined t
    · simp [firstMatch, h]
    · simp only [firstMatch, h, if_false]
      rcases ih with h1 | h2
      · exact Or.inl h1
      · exact Or.inr (List.mem_cons_of_mem t h2)

/-- C10.  The classifier never returns `INVALID_TARGET` (its pattern table has
no group for that category), so the non-retryable test
`error_type in [TOOL_NOT_FOUND, INVALID_TARGET]` of the resilient executor is
equivalent to `error_type = TOOL_NOT_FOUND` on every classified error: the
invalid-target branch is unreachable. -/
theorem classifier_never_invalid_target (msg stderr : String) (rc : Int) :
    diagnose_error msg stderr rc ≠ ErrorType.INVALID_TARGET ∧
    ((diagnose_error msg stderr rc = ErrorType.TOOL_NOT_FOUND ∨
        diagnose_error msg stderr rc = ErrorType.INVALID_TARGET) ↔
      diagnose_error msg stderr rc = ErrorType.TOOL_NOT_FOUND) := by
  have hne : diagnose_error msg stderr rc ≠ ErrorType.INVALID_TARGET := by
    unfold diagnose_error
    rcases firstMatch_mem (pyLower (msg ++ " " ++ stderr)) ERROR_PATTERN_ORDER with h | h
    · simp [h]
    · intro hc
      rw [hc] at h
      simp [ERROR_PATTERN_ORDER] at h
  refine ⟨hne, ?_, fun h => Or.inl h⟩
  rintro (h | h)
  · exact h
  · exact absurd h hne

/-! ### Suggestions and the tool availability registry -/

/-- Python `str(...)` on an embedded value, as f-string interpolation
stringifies it. -/
def pyStr : RVal → String
  | .str s => s
  | .bool b => if b then "True" else "False"
  | .int n => toString n
  | .strlist l => "[" ++ String.intercalate ", " l ++ "]"
  | .null => "None"

/-- `str(d.get(k, default))` with a string default. -/
def pyStrGet (d : Dict) (k : String) (default : String) : String :=
  pyStr ((dictGet d k).getD (.str default))

/-- `ToolChecker.TOOL_INSTALL_COMMANDS.get(tool_name)`: the static install
hint table of `tool_checker.py`. -/
def TOOL_INSTALL_COMMANDS (tool_name : String) : Option String :=
  if tool_name == "dalfox" then some "go install github.com/hahwul/dalfox/v2@latest"
  else if tool_name == "subfinder" then
    some "go install -v github.com/projectdiscovery/subfinder/v2/cmd/subfinder@latest"
  else if tool_name == "nuclei" then
    some "go install -v github.com/projectdiscovery/nuclei/v3/cmd/nuclei@latest"
  else if tool_name == "httpx" then
    some "go install -v github.com/projectdiscovery/httpx/cmd/httpx@latest"
  else if tool_name == "katana" then
    some "go install github.com/projectdiscovery/katana/cmd/katana@latest"
  else if tool_name == "gau" then some "go install github.com/lc/gau/v2/cmd/gau@latest"
  else if tool_name == "waybackurls" then some "go install github.com/tomnomnom/waybackurls@latest"
  else if tool_name == "amass" then some "go install -v github.com/owasp-amass/amass/v4/...@master"
  else if tool_name == "ffuf" then some "go install github.com/ffuf/ffuf/v2@latest"
  else if tool_name == "arjun" then some "pip3 install arjun"
  else if tool_name == "sqlmap" then some "sudo apt install sqlmap -y"
  else if tool_name == "wpscan" then some "sudo gem install wpscan"
  else if tool_name == "nmap" then some "sudo apt install nmap -y"
  else if tool_name == "nikto" then some "sudo apt install nikto -y"
  else if tool_name == "gobuster" then some "sudo apt install gobuster -y"
  else if tool_name == "masscan" then some "sudo apt install masscan -y"
  else if tool_name == "hydra" then some "sudo apt install hydra -y"
  else if tool_name == "john" then some "sudo apt install john -y"
  else if tool_name == "hashcat" then some "sudo apt install hashcat -y"
  else if tool_name == "metasploit-framework" then
    some "sudo apt install metasploit-framework -y"
  else if tool_name == "feroxbuster" then some "sudo apt install feroxbuster -y"
  else if tool_name == "dirsearch" then some "sudo apt install dirsearch -y"
  else if tool_name == "whatweb" then some "sudo apt install whatweb -y"
  else if tool_name == "testssl" then some "sudo apt install testssl.sh -y"
  else if tool_name == "sslscan" then some "sudo apt install sslscan -y"
  else none

/-- The Tool Availability Registry collaborator:
`ToolChecker.is_tool_available` is a memoized PATH probe (`shutil.which`),
external to the engine, so its verdicts are a parameter of the model. -/
structure ToolEnv where
  available : String → Bool

/-- `ToolChecker.check_tool_or_error`: availability verdict plus install hint
(message texts approximate the f-strings; no claim inspects them). -/
def check_tool_or_error (env : ToolEnv) (tool_name : String) : Dict :=
  if env.available tool_name then [("available", .bool true), ("tool", .str tool_name)]
  else
    let cmd := (TOOL_INSTALL_COMMANDS tool_name).getD
      ("# Unknown tool. Try: apt search " ++ tool_name)
    [("available", .bool false),
     ("error", .str ("Tool " ++ tool_name ++ " is not installed or not in PATH")),
     ("tool", .str tool_name),
     ("install_command", .str cmd),
     ("suggestion", .str ("Install using: " ++ cmd))]

/-- `ErrorDiagnostics.get_suggestions`: deterministic recovery suggestions per
category. -/
def get_suggestions (env : ToolEnv) (error_type : ErrorType) (tool_name : String) :
    List String :=
  match error_type with
  | .TOOL_NOT_FOUND =>
      let check := check_tool_or_error env tool_name
      let s1 : List String :=
        if !truthy (dictGet check "available") then
          ["Install " ++ tool_name ++ ": " ++ pyStr ((dictGet check "install_command").getD .null)]
        else []
      let alternatives := get_alternatives tool_name
      s1 ++
        (if alternatives.isEmpty then []
         else ["Try alternative tools: " ++ String.intercalate ", " alternatives])
  | .TIMEOUT =>
      ["Increase timeout value", "Check network connectivity", "Use faster scan options"]
  | .PERMISSION_DENIED => ["Run with sudo: sudo " ++ tool_name, "Check file permissions"]
  | .NETWORK_ERROR =>
      ["Check network connectivity", "Verify target is reachable: ping <target>",
       "Check DNS resolution"]
  | .WAF_DETECTED =>
      ["Use WAF bypass techniques", "Add delay between requests", "Use custom user-agent",
       "Consider using tamper scripts"]
  | .RATE_LIMITED => ["Reduce request rate", "Add delay between requests", "Use proxy rotation"]
  | _ => []

/-! ### The resilient executor (`ResilientExecutor`) -/

/-- The `ErrorContext` dataclass of `error_handler.py`. -/
structure ErrorContext where
  error_type : ErrorType
  tool_name : String
  target : String
  error_message : String
  timestamp : Nat
  retry_count : Nat
  suggestions : List String
  deriving DecidableEq, Repr

/-- Configuration of `ResilientExecutor.__init__`.  `retry_delay` only feeds
`time.sleep`, which has no observable effect in the model. -/
structure ResilientConfig where
  max_retries : Nat
  retry_delay : Nat
  enable_fallback : Bool

/-- An executor callable `f(target, params) -> dict`, which may raise
(`Except.error` carries `str(e)`). -/
abbrev ExecF := String → Params → Except String Dict

/-- The primary executor callable.  Python callables may be stateful (the
claims exercise fail-twice-then-succeed executors), so the model indexes each
invocation by its attempt number. -/
abbrev PrimaryExec := Nat → String → Params → Except String Dict

/-- `result.get('return_code', -1)` coerced to the integer the source passes
to `diagnose_error` (which ignores it). -/
def returnCodeOf (r : Dict) : Int :=
  match dictGet r "return_code" with
  | some (.int n) => n
  | _ => -1

/-- The error category the loop body assigns to a failed result dict:
`diagnose_error(result.get('error', 'Unknown error'), result.get('stderr', ''), ...)`. -/
def resultErrorType (r : Dict) : ErrorType :=
  diagnose_error (pyStrGet r "error" "Unknown error") (pyStrGet r "stderr" "") (returnCodeOf r)

/-- The `ErrorContext` recorded for a failed result dict at the given retry
count. -/
def mkErrorContext (env : ToolEnv) (now : Nat) (tool_name target : String) (r : Dict)
    (retry_count : Nat) : ErrorContext :=
  ⟨resultErrorType r, tool_name, target, pyStrGet r "error" "Unknown error", now, retry_count,
    get_suggestions env (resultErrorType r) tool_name⟩

/-- `ResilientExecutor._create_failure_result`. -/
def create_failure_result (tool_name target : String) (ec : Option ErrorContext) : Dict :=
  match ec with
  | some e =>
      [("success", .bool false), ("tool", .str tool_name), ("target", .str target),
       ("error", .str e.error_message), ("error_type", .str (errorTypeValue e.error_type)),
       ("retry_count", .int e.retry_count), ("suggestions", .strlist e.suggestions),
       ("timestamp", .int e.timestamp)]
  | none =>
      [("success", .bool false), ("tool", .str tool_name), ("target", .str target),
       ("error", .str "Unknown error"),
       ("suggestions", .strlist ["Review error logs", "Check tool installation"])]

/-- The alternatives loop of `ResilientExecutor._try_fallback`: walk the list;
an alternative the registry reports unavailable, or with no registered
executor, is skipped without invocation; an invoked alternative that raises or
reports failure is passed over; the first truthy-successful one is returned
with its name.  The second component records which alternatives were actually
invoked, in order. -/
def fallbackScan (env : ToolEnv) (target : String) (params : Params)
    (tool_executors : List (String × ExecF)) :
    List String → Option (String × Dict) × List String
  | [] => (none, [])
  | alt :: rest =>
      if !env.available alt then fallbackScan env target params tool_executors rest
      else
        match alGet tool_executors alt with
        | none => fallbackScan env target params tool_executors rest
        | some f =>
            match f target params with
            | .error _ =>
                let r := fallbackScan env target params tool_executors rest
                (r.1, alt :: r.2)
            | .ok res =>
                if truthy (dictGet res "success") then (some (alt, res), [alt])
                else
                  let r := fallbackScan env target params tool_executors rest
                  (r.1, alt :: r.2)

/-- `ResilientExecutor._try_fallback`: look up the substitution table; with no
alternatives, fail structurally; otherwise scan them and annotate the first
success with `used_alternative`, `original_tool` and `alternative_tool`, or
fail structurally if none succeeds.  Also returns the invocation trace. -/
def try_fallback (env : ToolEnv) (original_tool target : String) (params : Params)
    (tool_executors : List (String × ExecF)) (error_context : ErrorContext) :
    Dict × List String :=
  let alternatives := get_alternatives original_tool
  if alternatives.isEmpty then
    (create_failure_result original_tool target (some error_context), [])
  else
    match fallbackScan env target params tool_executors alternatives with
    | (some (alt, res), inv) =>
        (dictSet (dictSet (dictSet res "used_alternative" (.bool true)) "original_tool"
          (.str original_tool)) "alternative_tool" (.str alt), inv)
    | (none, inv) => (create_failure_result original_tool target (some error_context), inv)

/-- The retry loop of `ResilientExecutor.execute_with_resilience`
(`while retry_count <= max_retries`), with the loop condition realised by the
fuel argument (`fuel = max_retries + 1 - retry_count` on entry, so fuel runs
out exactly when the condition fails).  Returns either the successful result
dict or the last recorded error context, together with the number of primary
executor invocations made. -/
def resilience_loop (env : ToolEnv) (now : Nat) (tool_name target : String) (params : Params)
    (executor_func : PrimaryExec) :
    Nat → Nat → Nat → Option ErrorContext → (Except (Option ErrorContext) Dict) × Nat
  | 0, attempt, _, last_error => (.error last_error, attempt)
  | fuel + 1, attempt, retry_count, last_error =>
      match executor_func attempt target params with
      | .ok result =>
          if truthy (dictGet result "success") then (.ok result, attempt + 1)
          else
            let ec := mkErrorContext env now tool_name target result retry_count
            if ec.error_type = .TOOL_NOT_FOUND ∨ ec.error_type = .INVALID_TARGET then
              (.error (some ec), attempt + 1)
            else
              resilience_loop env now tool_name target params executor_func fuel (attempt + 1)
                (retry_count + 1) (some ec)
      | .error e =>
          let ec : ErrorContext :=
            ⟨.UNKNOWN, tool_name, target, e, now, retry_count,
              ["Check tool installation", "Review error logs"]⟩
          resilience_loop env now tool_name target params executor_func fuel (attempt + 1)
            (retry_count + 1) (some ec)

/-- `ResilientExecutor.execute_with_resilience`: run the primary retry loop;
on exhaustion or a non-retryable break, fall back to alternatives when
`enable_fallback` is set and an error context exists, else produce the
structured failure result.  The second component counts primary executor
invocations. -/
def execute_with_resilience (cfg : ResilientConfig) (env : ToolEnv) (now : Nat)
    (tool_name target : String) (params : Params) (executor_func : PrimaryExec)
    (tool_executors : List (String × ExecF)) : Dict × Nat :=
  match resilience_loop env now tool_name target params executor_func
      (cfg.max_retries + 1) 0 0 none with
  | (.ok r, attempts) => (r, attempts)
  | (.error le, attempts) =>
      match le, cfg.enable_fallback with
      | some ec, true =>
          ((try_fallback env tool_name target params tool_executors ec).1, attempts)
      | _, _ => (create_failure_result tool_name target le, attempts)

@[simp]
theorem mkErrorContext_error_type (env : ToolEnv) (now : Nat) (tool target : String)
    (r : Dict) (rc : Nat) :
    (mkErrorContext env now tool target r rc).error_type = resultErrorType r := rfl

/-- One loop iteration on a retryable failure: record the context and retry
with an incremented retry count. -/
theorem resilience_loop_retry (env : ToolEnv) (now : Nat) (tool target : String) (p : Params)
    (ef : PrimaryExec) (fuel attempt rc : Nat) (le : Option ErrorContext) (r : Dict)
    (h : ef attempt target p = .ok r) (hf : truthy (dictGet r "success") = false)
    (hr : resultErrorType r ≠ .TOOL_NOT_FOUND ∧ resultErrorType r ≠ .INVALID_TARGET) :
    resilience_loop env now tool target p ef (fuel + 1) attempt rc le =
      resilience_loop env now tool target p ef fuel (attempt + 1) (rc + 1)
        (some (mkErrorContext env now tool target r rc)) := by
  simp only [resilience_loop, h, hf, Bool.false_eq_true, if_false, mkErrorContext_error_type]
  rw [if_neg (not_or.mpr hr)]

/-- One loop iteration on a truthy-successful result: return it. -/
theorem resilience_loop_success (env : ToolEnv) (now : Nat) (tool target : String)
    (p : Params) (ef : PrimaryExec) (fuel attempt rc : Nat) (le : Option ErrorContext)
    (r : Dict) (h : ef attempt target p = .ok r)
    (hs : truthy (dictGet r "success") = true) :
    resilience_loop env now tool target p ef (fuel + 1) attempt rc le = (.ok r, attempt + 1) := by
  simp only [resilience_loop, h, hs, if_true]

/-- One loop iteration on a non-retryable failure: break with the recorded
context, leaving the retry count untouched. -/
theorem resilience_loop_break (env : ToolEnv) (now : Nat) (tool target : String) (p : Params)
    (ef : PrimaryExec) (fuel attempt rc : Nat) (le : Option ErrorContext) (r : Dict)
    (h : ef attempt target p = .ok r) (hf : truthy (dictGet r "success") = false)
    (hr : resultErrorType r = .TOOL_NOT_FOUND ∨ resultErrorType r = .INVALID_TARGET) :
    resilience_loop env now tool target p ef (fuel + 1) attempt rc le =
      (.error (some (mkErrorContext env now tool target r rc)), attempt + 1) := by
  simp only [resilience_loop, h, hf, Bool.false_eq_true, if_false, mkErrorContext_error_type]
  rw [if_pos hr]

/-! ### C4: retry-then-succeed -/

/-- A registry reporting every tool unavailable (the fallback phase is not
exercised by the retry claims). -/
def noToolsEnv : ToolEnv := ⟨fun _ => false⟩

/-- A stateful executor that fails with a retryable (network) error on its
first two invocations and succeeds on the third. -/
def retryThenSucceedExec : PrimaryExec := fun attempt _ _ =>
  match attempt with
  | 0 => .ok [("success", .bool false), ("error", .str "connection refused")]
  | 1 => .ok [("success", .bool false), ("error", .str "connection refused")]
  | _ => .ok [("success", .bool true)]

/-- Counterexample to C4 as stated: after failing twice retryably and
succeeding, `execute_with_resilience` with `max_retries=2` returns the
executor result dict unannotated — it is truthy-successful but carries NO
`retry_count` field at all (so the returned result does not have
`retry_count=2`). -/
theorem retry_success_lacks_retry_count :
    truthy (dictGet (execute_with_resilience ⟨2, 2, true⟩ noToolsEnv 0 "httpx" "t" []
      retryThenSucceedExec []).1 "success") = true ∧
    dictGet (execute_with_resilience ⟨2, 2, true⟩ noToolsEnv 0 "httpx" "t" []
      retryThenSucceedExec []).1 "retry_count" = none := by
  decide

/-- C4, amended.  An executor failing on its first two invocations with a
retryable error and succeeding on the third, under `max_retries=2`, is invoked
exactly three times and its third result is returned unmodified: hence
`success=true`, no `used_alternative` annotation (which therefore reads as
falsy), and no `retry_count` field — the two consumed retries are internal
state only. -/
theorem retry_then_succeed_returns_third_result (cfg : ResilientConfig) (env : ToolEnv)
    (now : Nat) (tool target : String) (p : Params) (ef : PrimaryExec)
    (execs : List (String × ExecF)) (r0 r1 r2 : Dict)
    (hmr : cfg.max_retries = 2)
    (h0 : ef 0 target p = .ok r0) (h0f : truthy (dictGet r0 "success") = false)
    (h0r : resultErrorType r0 ≠ .TOOL_NOT_FOUND ∧ resultErrorType r0 ≠ .INVALID_TARGET)
    (h1 : ef 1 target p = .ok r1) (h1f : truthy (dictGet r1 "success") = false)
    (h1r : resultErrorType r1 ≠ .TOOL_NOT_FOUND ∧ resultErrorType r1 ≠ .INVALID_TARGET)
    (h2 : ef 2 target p = .ok r2) (h2s : truthy (dictGet r2 "success") = true) :
    execute_with_resilience cfg env now tool target p ef execs = (r2, 3) := by
  have hloop : resilience_loop env now tool target p ef (cfg.max_retries + 1) 0 0 none =
      (.ok r2, 3) := by
    rw [hmr]
    show resilience_loop env now tool target p ef (2 + 1) 0 0 none = (.ok r2, 3)
    rw [resilience_loop_retry env now tool target p ef 2 0 0 none r0 h0 h0f h0r]
    show resilience_loop env now tool target p ef (1 + 1) 1 1
      (some (mkErrorContext env now tool target r0 0)) = (.ok r2, 3)
    rw [resilience_loop_retry env now tool target p ef 1 1 1 _ r1 h1 h1f h1r]
    show resilience_loop env now tool target p ef (0 + 1) 2 2
      (some (mkErrorContext env now tool target r1 1)) = (.ok r2, 3)
    rw [resilience_loop_success env now tool target p ef 0 2 2 _ r2 h2 h2s]
  unfold execute_with_resilience
  rw [hloop]

/-- Witness for `retry_then_succeed_returns_third_result` at the concrete
fail-fail-succeed executor. -/
theorem retry_then_succeed_witness :
    execute_with_resilience ⟨2, 2, true⟩ noToolsEnv 0 "httpx" "t" [] retryThenSucceedExec [] =
      ([("success", RVal.bool true)], 3) :=
  retry_then_succeed_returns_third_result ⟨2, 2, true⟩ noToolsEnv 0 "httpx" "t" []
    retryThenSucceedExec [] [("success", RVal.bool false), ("error", RVal.str "connection refused")]
    [("success", RVal.bool false), ("error", RVal.str "connection refused")]
    [("success", RVal.bool true)] rfl rfl (by decide) (by decide) rfl (by decide) (by decide)
    rfl (by decide)

/-! ### C6: non-retryable short circuit -/

/-- C6.  An executor whose first failure classifies as tool-not-found or
invalid-target is invoked exactly once, regardless of the configured retry
budget; the recorded context keeps `retry_count = 0`, and the outcome is the
fallback phase when enabled, else the structured failure result. -/
theorem non_retryable_short_circuit (cfg : ResilientConfig) (env : ToolEnv) (now : Nat)
    (tool target : String) (p : Params) (ef : PrimaryExec) (execs : List (String × ExecF))
    (r0 : Dict) (h0 : ef 0 target p = .ok r0)
    (h0f : truthy (dictGet r0 "success") = false)
    (h0t : resultErrorType r0 = .TOOL_NOT_FOUND ∨ resultErrorType r0 = .INVALID_TARGET) :
    (execute_with_resilience cfg env now tool target p ef execs).2 = 1 ∧
    (execute_with_resilience cfg env now tool target p ef execs).1 =
      (if cfg.enable_fallback then
        (try_fallback env tool target p execs (mkErrorContext env now tool target r0 0)).1
       else create_failure_result tool target (some (mkErrorContext env now tool target r0 0))) ∧
    (mkErrorContext env now tool target r0 0).retry_count = 0 := by
  have hloop : resilience_loop env now tool target p ef (cfg.max_retries + 1) 0 0 none =
      (.error (some (mkErrorContext env now tool target r0 0)), 1) :=
    resilience_loop_break env now tool target p ef cfg.max_retries 0 0 none r0 h0 h0f h0t
  unfold execute_with_resilience
  rw [hloop]
  cases hfb : cfg.enable_fallback <;> simp [hfb, mkErrorContext]

/-- An executor that always fails with a tool-not-found signature. -/
def notFoundExec : PrimaryExec := fun _ _ _ =>
  .ok [("success", .bool false), ("error", .str "command not found")]

/-- Witness for `non_retryable_short_circuit`: a tool-not-found failure under
a generous retry budget (`max_retries=5`) invokes the primary executor once
and goes straight to the fallback phase. -/
theorem non_retryable_short_circuit_witness :
    (execute_with_resilience ⟨5, 2, true⟩ noToolsEnv 0 "httpx" "t" [] notFoundExec []).2 = 1 ∧
    (execute_with_resilience ⟨5, 2, true⟩ noToolsEnv 0 "httpx" "t" [] notFoundExec []).1 =
      (try_fallback noToolsEnv "httpx" "t" [] []
        (mkErrorContext noToolsEnv 0 "httpx" "t"
          [("success", RVal.bool false), ("error", RVal.str "command not found")] 0)).1 ∧
    (mkErrorContext noToolsEnv 0 "httpx" "t"
      [("success", RVal.bool false), ("error", RVal.str "command not found")] 0).retry_count =
      0 := by
  have h := non_retryable_short_circuit ⟨5, 2, true⟩ noToolsEnv 0 "httpx" "t" [] notFoundExec []
    [("success", RVal.bool false), ("error", RVal.str "command not found")] rfl (by decide)
    (by decide)
  simpa using h

/-! ### C7: fallback tries the substitution table in order -/

/-- Eligibility of an alternative, from the claim: the registry reports it
available and an executor is registered for it. -/
def eligible (env : ToolEnv) (tool_executors : List (String × ExecF)) (alt : String) : Bool :=
  env.available alt && (alGet tool_executors alt).isSome

/-- The observable outcome of invoking an alternative: `some r` exactly when
its registered executor returns a truthy-successful dict (an exception or a
failure result yields `none`). -/
def invokeOutcome (target : String) (params : Params)
    (tool_executors : List (String × ExecF)) (alt : String) : Option Dict :=
  match alGet tool_executors alt with
  | none => none
  | some f =>
      match f target params with
      | .error _ => none
      | .ok r => if truthy (dictGet r "success") then some r else none

/-- From the claim: the alternatives actually invoked are the eligible ones in
table order, up to and including the first success. -/
def invokedSpec (succeeds : String → Bool) : List String → List String
  | [] => []
  | a :: rest => if succeeds a then [a] else a :: invokedSpec succeeds rest

/-- C7 spec-side definition, written from the claim: alternatives are taken
from the static substitution table in order; unavailable or unregistered ones
are skipped without invocation; the first whose executor returns success
yields that result annotated `used_alternative=true`,
`original_tool=<original>`, `alternative_tool=<chosen>`; with no success (or
no eligible alternative) a structured failure result is returned. -/
def fallback_spec (env : ToolEnv) (original_tool target : String) (params : Params)
    (tool_executors : List (String × ExecF)) (ec : ErrorContext) : Dict × List String :=
  let elig := (get_alternatives original_tool).filter (eligible env tool_executors)
  let succeeds := fun a => (invokeOutcome target params tool_executors a).isSome
  let res : Dict :=
    match elig.find? succeeds with
    | some alt =>
        dictSet (dictSet (dictSet ((invokeOutcome target params tool_executors alt).getD [])
          "used_alternative" (.bool true)) "original_tool" (.str original_tool))
          "alternative_tool" (.str alt)
    | none => create_failure_result original_tool target (some ec)
  (res, invokedSpec succeeds elig)

/-- The fallback loop agrees pointwise with the claim-side scan of the
eligible alternatives. -/
theorem fallbackScan_eq_spec (env : ToolEnv) (target : String) (params : Params)
    (execs : List (String × ExecF)) (alts : List String) :
    fallbackScan env target params execs alts =
      ((((alts.filter (eligible env execs)).find?
          (fun a => (invokeOutcome target params execs a).isSome)).map
          (fun a => (a, (invokeOutcome target params execs a).getD []))),
        invokedSpec (fun a => (invokeOutcome target params execs a).isSome)
          (alts.filter (eligible env execs))) := by
  induction alts with
  | nil => rfl
  | cons a rest ih =>
    by_cases hav : env.available a
    · cases hex : alGet execs a with
      | none =>
          have hel : eligible env execs a = false := by simp [eligible, hav, hex]
          simpa [fallbackScan, hav, hex, List.filter_cons, hel] using ih
      | some f =>
          have hel : eligible env execs a = true := by simp [eligible, hav, hex]
          cases hf : f target params with
          | error e =>
              have hio : invokeOutcome target params execs a = none := by
                simp [invokeOutcome, hex, hf]
              simp only [fallbackScan, hav, Bool.not_true, Bool.false_eq_true, if_false, hex,
                hf, ih, List.filter_cons, hel, if_true, List.find?_cons, hio,
                Option.isSome_none, invokedSpec]
          | ok res =>
              by_cases hs : truthy (dictGet res "success")
              · have hio : invokeOutcome target params execs a = some res := by
                  simp [invokeOutcome, hex, hf, hs]
                simp only [fallbackScan, hav, Bool.not_true, Bool.false_eq_true, if_false, hex,
                  hf, hs, if_true, List.filter_cons, hel, List.find?_cons, hio,
                  Option.isSome_some, invokedSpec, Option.map_some, Option.getD_some]
                simp [hio]
              · have hio : invokeOutcome target params execs a = none := by
                  simp [invokeOutcome, hex, hf, hs]
                simp only [fallbackScan, hav, Bool.not_true, Bool.false_eq_true, if_false, hex,
                  hf, hs, ih, List.filter_cons, hel, if_true, List.find?_cons, hio,
                  Option.isSome_none, invokedSpec]
    · have hav2 : env.available a = false := by simpa using hav
      have hel : eligible env execs a = false := by simp [eligible, hav2]
      simpa [fallbackScan, hav2, List.filter_cons, hel] using ih

/-- C7.  `_try_fallback` realises exactly the claimed behaviour: alternatives
from the static table are tried strictly in table order, unavailable or
unregistered ones are skipped without invocation, the first success is
returned annotated with `used_alternative=true`, `original_tool` and
`alternative_tool`, and absent any success a structured failure result is
produced — including the invocation trace, the loop equals the claim-side
`fallback_spec`. -/
theorem fallback_matches_table_order_spec (env : ToolEnv) (original_tool target : String)
    (params : Params) (execs : List (String × ExecF)) (ec : ErrorContext) :
    try_fallback env original_tool target params execs ec =
      fallback_spec env original_tool target params execs ec := by
  cases he : (get_alternatives original_tool).isEmpty
  · simp only [try_fallback, fallback_spec, he, Bool.false_eq_true, if_false,
      fallbackScan_eq_spec]
    cases hf : ((get_alternatives original_tool).filter (eligible env execs)).find?
        (fun a => (invokeOutcome target params execs a).isSome) with
    | none => simp [hf]
    | some alt => simp [hf]
  · have h0 : get_alternatives original_tool = [] := by simpa using he
    simp [try_fallback, fallback_spec, h0, invokedSpec]

/-! ### The task scheduler (`parallel_scanner.py`) -/

/-- The `ScanTask` dataclass. -/
structure ScanTask where
  tool_name : String
  target : String
  params : Params
  timeout : Nat
  priority : Int
  deriving DecidableEq, Repr

/-- The `ScanResult` dataclass.  `success` and `timed_out` hold the truthiness
of the corresponding result-dict entries, as the source reads them with
`result.get(..., False)`. -/
structure ScanResult where
  tool_name : String
  target : String
  success : Bool
  result : Dict
  execution_time : Nat
  error : Option String
  timed_out : Bool
  deriving DecidableEq, Repr

/-- The observable behaviour of one executor invocation: the wall-clock time
it takes, and either the returned result dict or a raised exception. -/
structure ExecBehavior where
  duration : Nat
  outcome : Except String Dict

/-- An executor callable as the scheduler sees it. -/
abbrev TaskExec := String → Params → ExecBehavior

/-- `ParallelScanner.execute_single_task`: invoke the executor, measure
wall-clock time, and convert any raised exception into a failed `ScanResult`
(so the wrapped task itself never raises). -/
def execute_single_task (task : ScanTask) (executor_func : TaskExec) : ScanResult :=
  let b := executor_func task.target task.params
  match b.outcome with
  | .ok result =>
      ⟨task.tool_name, task.target, truthy (dictGet result "success"), result, b.duration,
        none, truthy (dictGet result "timed_out")⟩
  | .error e => ⟨task.tool_name, task.target, false, [], b.duration, some e, false⟩

/-- `sorted(tasks, key=lambda t: t.priority, reverse=True)`: stable sort by
descending priority. -/
def prioGe (a b : ScanTask) : Prop := b.priority ≤ a.priority

instance : DecidableRel prioGe := fun a b => inferInstanceAs (Decidable (b.priority ≤ a.priority))

/-- Tasks in dispatch order. -/
def sortTasks (tasks : List ScanTask) : List ScanTask := List.insertionSort prioGe tasks

/-- Observable outcome of one `execute_parallel` call: the results dict and
the trace of `progress_callback(completed, total, tool_name)` invocations. -/
structure ParallelOutcome where
  results : List (String × ScanResult)
  progress_calls : List (Nat × Nat × String)
  deriving DecidableEq, Repr

/-- The submission loop of `execute_parallel`: a task with no registered
executor gets an immediate failure result (and is never submitted, counted, or
reported via the progress callback); the rest become submitted futures, in
dispatch order. -/
def submitPhase (tool_executors : List (String × TaskExec)) (sorted_tasks : List ScanTask) :
    List (String × ScanResult) × List ScanTask :=
  sorted_tasks.foldl
    (fun acc task =>
      match alGet tool_executors task.tool_name with
      | none =>
          (alSet acc.1 task.tool_name
            ⟨task.tool_name, task.target, false, [], 0,
              some ("No executor found for " ++ task.tool_name), false⟩, acc.2)
      | some _ => (acc.1, acc.2 ++ [task]))
    ([], [])

/-- One step of the collection loop, fed one completed future.  Because
`as_completed` only yields futures that have already completed,
`future.result(timeout=task.timeout)` returns immediately whatever
`execute_single_task` produced — it can never raise `FutureTimeoutError`, and
since `execute_single_task` absorbs executor exceptions, the two `except`
arms of the source loop are unreachable: each completed future takes the
happy path, which stores the result, increments the completed counter, and
invokes the progress callback when one was supplied. -/
def collectStep (tool_executors : List (String × TaskExec)) (total_tasks : Nat)
    (has_callback : Bool)
    (acc : List (String × ScanResult) × Nat × List (Nat × Nat × String)) (task : ScanTask) :
    List (String × ScanResult) × Nat × List (Nat × Nat × String) :=
  match alGet tool_executors task.tool_name with
  | some f =>
      let r := execute_single_task task f
      (alSet acc.1 task.tool_name r, acc.2.1 + 1,
        acc.2.2 ++ (if has_callback then [(acc.2.1 + 1, total_tasks, task.tool_name)] else []))
  | none => acc

/-- `ParallelScanner.execute_parallel`: sort by priority, record immediate
failures for tasks without executors, then drain the completed futures.  The
`completion` argument is the nondeterministic order in which `as_completed`
yields the submitted futures (theorems quantify over it or fix it
concretely); `has_callback` records whether a `progress_callback` was
supplied. -/
def execute_parallel (tasks : List ScanTask) (tool_executors : List (String × TaskExec))
    (has_callback : Bool) (completion : List ScanTask) : ParallelOutcome :=
  if tasks.isEmpty then ⟨[], []⟩
  else
    let sorted_tasks := sortTasks tasks
    let total_tasks := sorted_tasks.length
    let init := submitPhase tool_executors sorted_tasks
    let fin := completion.foldl (collectStep tool_executors total_tasks has_callback)
      (init.1, 0, [])
    ⟨fin.1, fin.2.2⟩

/-! ### C2: the per-task timeout never fires -/

/-- A task whose configured timeout is 1 second. -/
def slowTask : ScanTask := ⟨"nmap", "scanme", [], 1, 0⟩

/-- An executor taking 10 seconds of wall clock and then reporting success. -/
def slowExec : TaskExec := fun _ _ => ⟨10, .ok [("success", .bool true)]⟩

/-- C2 evaluated at the failing input: a task with `timeout=1` whose executor
takes 10 seconds does NOT yield `ScanResult(timed_out=True, success=False)` —
because `as_completed` yields only completed futures, `future.result(timeout)`
never raises and the scheduler simply waits out the full 10 seconds and stores
the executor result (`success=true, timed_out=false, execution_time=10`).  The
`except FutureTimeoutError` branch of the source, which would build the
claimed timed-out result, is dead code. -/
theorem scheduler_timeout_never_fires :
    alGet (execute_parallel [slowTask] [("nmap", slowExec)] true [slowTask]).results "nmap" =
      some ⟨"nmap", "scanme", true, [("success", RVal.bool true)], 10, none, false⟩ := by
  decide

/-! ### C3: progress callback per completed task -/

/-- A task for tool `a` (registered) and one for tool `b` (unregistered). -/
def taskA : ScanTask := ⟨"a", "scanme", [], 300, 0⟩

/-- Companion task whose tool has no registered executor in the
counterexample. -/
def taskB : ScanTask := ⟨"b", "scanme", [], 300, 0⟩

/-- A fast always-successful executor. -/
def quickExec : TaskExec := fun _ _ => ⟨1, .ok [("success", .bool true)]⟩

/-- Counterexample to C3 as stated: with batch `[taskA, taskB]` and only `a`
registered, both tasks complete (two entries in the result map) but the
progress callback fires only once, with `completed_count = 1` even though two
tasks of the batch have completed — tasks failed for lack of an executor are
neither counted nor reported. -/
theorem progress_callback_missed_for_unregistered :
    (execute_parallel [taskA, taskB] [("a", quickExec)] true [taskA]).progress_calls =
      [(1, 2, "a")] ∧
    (execute_parallel [taskA, taskB] [("a", quickExec)] true [taskA]).results.length = 2 := by
  decide

/-- The callback trace the claim predicts: the k-th completion is reported as
`(k, total, tool_name)`. -/
def expectedCalls (total : Nat) : Nat → List ScanTask → List (Nat × Nat × String)
  | _, [] => []
  | n, t :: rest => (n + 1, total, t.tool_name) :: expectedCalls total (n + 1) rest

/-- The collection loop appends exactly one callback record per drained
future, in completion order, with a running counter. -/
theorem collect_calls (tool_executors : List (String × TaskExec)) (total : Nat)
    (completion : List ScanTask)
    (h : ∀ t ∈ completion, (alGet tool_executors t.tool_name).isSome) :
    ∀ (res : List (String × ScanResult)) (n : Nat) (calls : List (Nat × Nat × String)),
      (completion.foldl (collectStep tool_executors total true) (res, n, calls)).2.2 =
        calls ++ expectedCalls total n completion := by
  induction completion with
  | nil => intro res n calls; simp [expectedCalls]
  | cons t rest ih =>
    intro res n calls
    obtain ⟨f, hf⟩ := Option.isSome_iff_exists.mp (h t (List.mem_cons_self t rest))
    simp only [List.foldl_cons, collectStep, hf, if_true]
    rw [ih (fun u hu => h u (List.mem_cons_of_mem t hu))]
    simp [expectedCalls]

/-- C3, amended.  With a progress callback supplied, the callback is invoked
exactly once per task dispatched to the worker pool, in completion order; the
k-th invocation carries `completed_count = k` (counting pool completions only)
and `total_count` equal to the batch size (which does include tasks that had
no registered executor, although those produce a failure result without any
callback and without being counted). -/
theorem progress_callback_per_pool_task (tasks : List ScanTask)
    (tool_executors : List (String × TaskExec)) (completion : List ScanTask)
    (hne : tasks ≠ [])
    (h : ∀ t ∈ completion, (alGet tool_executors t.tool_name).isSome) :
    (execute_parallel tasks tool_executors true completion).progress_calls =
      expectedCalls tasks.length 0 completion := by
  have hie : tasks.isEmpty = false := by
    cases tasks with
    | nil => exact absurd rfl hne
    | cons a l => rfl
  simp only [execute_parallel, hie, Bool.false_eq_true, if_false]
  rw [collect_calls tool_executors (sortTasks tasks).length completion h]
  simp [sortTasks, List.length_insertionSort]

/-- Witness for `progress_callback_per_pool_task`: two registered tasks
completing in the order `b` then `a` produce exactly the two calls
`(1, 2, b)` and `(2, 2, a)`. -/
theorem progress_callback_per_pool_task_witness :
    (execute_parallel [taskA, taskB] [("a", quickExec), ("b", quickExec)] true
      [taskB, taskA]).progress_calls = [(1, 2, "b"), (2, 2, "a")] :=
  (progress_callback_per_pool_task [taskA, taskB] [("a", quickExec), ("b", quickExec)]
    [taskB, taskA] (by decide) (by decide)).trans (by decide)

end Hexstrike
